import Mathlib

/-!
Verification of the chart-synchronized device session engine
(`src/lib/chartSync/session.ts` of sessionmint/machinegobrr).

The file shallowly embeds the session manager: JavaScript numbers used as
integers become `Int`/`Nat` with explicit wrapping where the code performs
32-bit bitwise operations, fractional arithmetic becomes `ℚ`, the ambient
clock (`Date.now()`) becomes an explicit `now : ℤ` parameter, the module
level `Map` of sessions becomes an association list threaded through each
operation, and code that may throw returns `Except`.

The sibling modules `types.ts`, `data.ts`, `modes.ts`, `booster.ts` and
`safety.ts` are part of the repository but are not present in the source
tree made available here; where their behaviour matters they are modelled
from the specification (doc comments note this), and where only their
possibly-throwing call sites matter they enter `processSessionTick` as an
environment of `Except`-valued functions (`TickDeps`).
-/

namespace ChartSync

/-! ## 32-bit wrapping arithmetic and the seed hash -/

/-- Signed 32-bit wrap: the representative of `x` modulo `2^32` in
`[-2^31, 2^31)`.  This is what JavaScript's `| 0`-style coercions
(`<< 5`, `& hash`) produce on exact integer inputs. -/
def wrap32 (x : ℤ) : ℤ :=
  (x + 2147483648) % 4294967296 - 2147483648

/-- One step of the hash loop as written in the source:
`hash = ((hash << 5) - hash) + char; hash = hash & hash;`.
The left shift itself wraps to a signed 32-bit value before the
subtraction, and the `& hash` wraps the result again. -/
def srcHashStep (h : ℤ) (c : ℕ) : ℤ :=
  wrap32 (wrap32 (32 * h) - h + (c : ℤ))

/-- One step of the hash as the specification words it:
`hash = hash*31 + charCode`, wrapped to signed 32-bit. -/
def specHashStep (h : ℤ) (c : ℕ) : ℤ :=
  wrap32 (31 * h + (c : ℤ))

/-- UTF-16-style character codes of a string (`charCodeAt`); the
identifiers involved are plain-ASCII strings, for which Lean code points
and UTF-16 units coincide. -/
def charCodes (s : String) : List ℕ :=
  s.toList.map Char.toNat

/-- The string hashed by `generateSeed`:
`` `${sessionStateId}:${tokenMint}:${Math.floor(startTime / 60000)}` ``. -/
def seedString (sessionStateId tokenMint : String) (startTime : ℤ) : String :=
  sessionStateId ++ ":" ++ tokenMint ++ ":" ++ toString (Int.fdiv startTime 60000)

/-- The rolling hash of the source, folded over a string's character codes. -/
def hashString (s : String) : ℤ :=
  (charCodes s).foldl srcHashStep 0

/-- The rolling hash as described by the spec (`hash*31 + char`, wrapped). -/
def specHashString (s : String) : ℤ :=
  (charCodes s).foldl specHashStep 0

/-- `generateSeed` from the source: absolute value of the rolling hash of
`sessionStateId:tokenMint:floor(startTime/60000)`. -/
def generateSeed (sessionStateId tokenMint : String) (startTime : ℤ) : ℕ :=
  (hashString (seedString sessionStateId tokenMint startTime)).natAbs

/-- The seed as the specification describes it, built from `specHashStep`. -/
def generateSeedSpec (sessionStateId tokenMint : String) (startTime : ℤ) : ℕ :=
  (specHashString (seedString sessionStateId tokenMint startTime)).natAbs

/-! ## Seeded random number generator

The source class `SeededRandom` holds a mutable `seed`; here the state is
passed explicitly, each operation returning the new state first.  The JS
expression `(seed * 1103515245 + 12345) & 0x7fffffff` is embedded as exact
integer arithmetic reduced mod `2^31`.  This idealizes away the IEEE-754
float64 rounding JavaScript applies to the up-to-61-bit product, which
perturbs the low bits of the state sequence; the theorems below therefore
use this generator only for properties insensitive to that rounding
(determinism and once-per-session parameter generation), not for bit-level
claims about its output values. -/

namespace SeededRandom

/-- `next()`: advance the LCG state and return the new state together with
the emitted value `seed / 0x7fffffff : ℚ`. -/
def next (s : ℕ) : ℕ × ℚ :=
  let s' := (s * 1103515245 + 12345) % 2147483648
  (s', (s' : ℚ) / 2147483647)

/-- `range(min, max)` = `min + next() * (max - min)`. -/
def range (s : ℕ) (lo hi : ℚ) : ℕ × ℚ :=
  let p := next s
  (p.1, lo + p.2 * (hi - lo))

/-- `int(min, max)` = `Math.floor(range(min, max + 1))`. -/
def int (s : ℕ) (lo hi : ℚ) : ℕ × ℤ :=
  let p := range s lo (hi + 1)
  (p.1, ⌊p.2⌋)

end SeededRandom

/-! ## Mode parameters -/

/-- Randomized per-session thresholds and weights (`ModeParams` in
`types.ts`; field list as used by `generateModeParams`). -/
structure ModeParams where
  trendCap : ℚ
  chopCap : ℚ
  accelCap : ℚ
  devCap : ℚ
  liqDropCap : ℚ
  weightTrend : ℚ
  weightChop : ℚ
  emaN : ℤ
  deriving DecidableEq

/-- `generateModeParams` from the source: draw the seven randomized fields
in order from the seeded RNG, set `weightChop = 1 - weightTrend`, then
re-roll one cap for modes 2, 3 and 5. -/
def generateModeParams (seed : ℕ) (modeId : ℕ) : ModeParams :=
  let r1 := SeededRandom.range seed (3/1000) (10/1000)
  let r2 := SeededRandom.range r1.1 (5/1000) (20/1000)
  let r3 := SeededRandom.range r2.1 (2/1000) (8/1000)
  let r4 := SeededRandom.range r3.1 (5/1000) (20/1000)
  let r5 := SeededRandom.range r4.1 (3/100) (15/100)
  let r6 := SeededRandom.range r5.1 (1/2) (3/4)
  let r7 := SeededRandom.int r6.1 2 4
  let params : ModeParams :=
    { trendCap := r1.2, chopCap := r2.2, accelCap := r3.2, devCap := r4.2
      liqDropCap := r5.2, weightTrend := r6.2, weightChop := 1 - r6.2
      emaN := r7.2 }
  match modeId with
  | 2 => { params with chopCap := (SeededRandom.range r7.1 (4/1000) (15/1000)).2 }
  | 3 => { params with accelCap := (SeededRandom.range r7.1 (2/1000) (8/1000)).2 }
  | 5 => { params with liqDropCap := (SeededRandom.range r7.1 (3/100) (12/100)).2 }
  | _ => params

/-! ## Data model -/

/-- One market sample.  Modelled from the spec: the `Candle` shape lives in
`types.ts` (not in the available tree); the engine reads its `price` and
`volume` fields. -/
structure Candle where
  price : ℚ
  volume : ℚ
  deriving DecidableEq

/-- Per-tick derived metrics.  Modelled from the spec: computed by
`computeMetrics` in `data.ts` (not in the available tree). -/
structure Metrics where
  trend : ℚ
  chop : ℚ
  accel : ℚ
  deviation : ℚ
  liqDrop : ℚ
  deriving DecidableEq

/-- Output of `computeMode`.  Modelled from the spec: `modes.ts` is not in
the available tree; the tick reads `intensity`, `speed`, `amplitude` and
the logging label `style`. -/
structure ModeResult where
  intensity : ℚ
  speed : ℚ
  amplitude : ℚ
  style : String
  deriving DecidableEq

/-- Output of `applyBooster`.  Modelled from the spec: `booster.ts` is not
in the available tree. -/
structure BoosterResult where
  speed : ℚ
  amplitude : ℚ
  newStep : ℕ
  wasApplied : Bool
  deriving DecidableEq

/-- Output of `applySafetyPipeline`.  Modelled from the spec: `safety.ts`
is not in the available tree. -/
structure SafetyResult where
  speed : ℚ
  amplitude : ℚ
  wasLimited : Bool
  deriving DecidableEq

/-- `DeviceCommand` as in the spec's data model: `{speed, minY, maxY}`. -/
structure DeviceCommand where
  speed : ℚ
  minY : ℚ
  maxY : ℚ
  deriving DecidableEq

/-- Modelled from the spec: `SESSION_DURATION_MS` is exported by `types.ts`
(not in the available tree); the spec fixes the session duration at
10 minutes. -/
def SESSION_DURATION_MS : ℤ := 600000

/-- Modelled from the spec: `BUFFER_SIZE` is exported by `types.ts` (not in
the available tree); the spec fixes only that the candle buffer is bounded,
not the bound itself.  The concrete value below is arbitrary and no theorem
depends on it. -/
def BUFFER_SIZE : ℕ := 30

/-- `ChartSyncSession` from `types.ts`, with exactly the fields `session.ts`
creates and mutates. -/
structure Session where
  sessionId : String
  tokenMint : String
  startTime : ℤ
  endTime : ℤ
  modeId : ℕ
  modeParams : ModeParams
  seed : ℕ
  lastSpeed : ℚ
  lastAmplitude : ℚ
  boosterStep : ℕ
  candleBuffer : List Candle
  isActive : Bool
  deriving DecidableEq

/-- `SessionConfig`: the inputs of `createSession`; `startTime` is optional
(`config.startTime || Date.now()`). -/
structure SessionConfig where
  sessionStateId : String
  tokenMint : String
  startTime : Option ℤ
  deriving DecidableEq

/-! ## The session table

The module-level `Map<string, ChartSyncSession>` becomes an association
list in insertion order; `mapSet` replaces an existing key in place and
appends a new key, as `Map.set` does. -/

/-- The session store. -/
abbrev SessionTable : Type := List (String × Session)

/-- `sessions.get(k)`. -/
def mapGet (t : SessionTable) (k : String) : Option Session :=
  (List.find? (fun p => p.1 == k) t).map (fun p => p.2)

/-- `sessions.set(k, v)`: replace in place, or append. -/
def mapSet : SessionTable → String → Session → SessionTable
  | [], k, v => [(k, v)]
  | (k', v') :: rest, k, v =>
    if k' == k then (k, v) :: rest else (k', v') :: mapSet rest k v

/-! ## Session manager operations -/

/-- `createSession` from the source.  `Date.now()` is the explicit `now`
argument; `config.startTime || Date.now()` falls back to `now` when
`startTime` is absent or `0` (JavaScript falsiness). -/
def createSession (table : SessionTable) (config : SessionConfig) (now : ℤ) :
    SessionTable × Session :=
  let startTime : ℤ :=
    match config.startTime with
    | some t => if t = 0 then now else t
    | none => now
  let seed := generateSeed config.sessionStateId config.tokenMint startTime
  let modeId : ℕ := 1
  let modeParams := generateModeParams seed modeId
  let session : Session :=
    { sessionId := config.sessionStateId ++ "-" ++ toString startTime
      tokenMint := config.tokenMint
      startTime := startTime
      endTime := startTime + SESSION_DURATION_MS
      modeId := modeId
      modeParams := modeParams
      seed := seed
      lastSpeed := 40
      lastAmplitude := 25
      boosterStep := 0
      candleBuffer := []
      isActive := true }
  (mapSet table session.sessionId session, session)

/-- `getSession`. -/
def getSession (table : SessionTable) (sessionId : String) : Option Session :=
  mapGet table sessionId

/-- `getActiveSessionForToken`: first session in table order whose
`tokenMint` matches and whose `isActive` flag is set (expiry is not
consulted). -/
def getActiveSessionForToken (table : SessionTable) (tokenMint : String) :
    Option Session :=
  (List.find? (fun p => p.2.tokenMint == tokenMint && p.2.isActive) table).map
    (fun p => p.2)

/-- `isSessionExpired`: `Date.now() >= session.endTime`, with the clock
explicit. -/
def isSessionExpired (now : ℤ) (session : Session) : Bool :=
  decide (session.endTime ≤ now)

/-- `endSession`: clear the `isActive` flag if the session exists. -/
def endSession (table : SessionTable) (sessionId : String) : SessionTable :=
  match mapGet table sessionId with
  | none => table
  | some session => mapSet table sessionId { session with isActive := false }

/-! ## Safety pipeline and device command (modelled from the spec) -/

/-- Clamp to `[0, 100]`. -/
def clamp100 (x : ℚ) : ℚ :=
  min 100 (max 0 x)

/-- One rate-limit step: move from `last` toward `target` by at most
`maxDelta`; the second component records whether limiting occurred. -/
def rateLimit (maxDelta last target : ℚ) : ℚ × Bool :=
  if maxDelta < |target - last| then
    (if target < last then last - maxDelta else last + maxDelta, true)
  else
    (target, false)

/-- Modelled from the spec: `applySafetyPipeline` lives in `safety.ts`,
which is not in the available tree.  Per the spec's contract: clamp the raw
speed and amplitude to `[0,100]`; rate-limit the change from
`lastSpeed`/`lastAmplitude` to a fixed maximum delta per tick, moving only
by that delta toward the raw value when it would be exceeded; optionally
apply the anti-bored minimum speed floor; report `wasLimited`.  The spec
does not fix the numeric values of the maximum delta or the floor, so both
are parameters here. -/
def applySafetyPipeline (maxDelta boredFloor : ℚ)
    (rawSpeed rawAmplitude lastSpeed lastAmplitude : ℚ)
    (antiBoredFloorEnabled : Bool) : SafetyResult :=
  let cs := clamp100 rawSpeed
  let ca := clamp100 rawAmplitude
  let ps := rateLimit maxDelta lastSpeed cs
  let pa := rateLimit maxDelta lastAmplitude ca
  let finalSpeed := if antiBoredFloorEnabled then max boredFloor ps.1 else ps.1
  { speed := finalSpeed, amplitude := pa.1, wasLimited := ps.2 || pa.2 }

/-- Modelled from the spec: `createDeviceCommand` lives in `safety.ts`,
which is not in the available tree.  The spec fixes only the command shape
`{speed, minY, maxY}` with each field in `[0,100]` and stop being
`minY = maxY = 50`; the band is taken symmetric about the 50 midline with
height `amplitude`. -/
def createDeviceCommand (r : SafetyResult) : DeviceCommand :=
  { speed := r.speed
    minY := max 0 (50 - r.amplitude / 2)
    maxY := min 100 (50 + r.amplitude / 2) }

/-- Modelled from the spec: `getModeName` lives in `modes.ts`, which is not
in the available tree; the spec names five modes. -/
def getModeName (modeId : ℕ) : String :=
  match modeId with
  | 1 => "Trend Rider"
  | 2 => "Chop Monster"
  | 3 => "Momentum Bursts"
  | 4 => "Deviation"
  | 5 => "Liquidity Panic"
  | _ => "Unknown"

/-! ## The tick

The imported computation steps (`fetchCandles`, `updateBuffer`,
`computeMetrics`, `selectModeFromMetrics`, `computeMode`, `applyBooster`,
`applySafetyPipeline`) are TypeScript functions any of which may throw;
they enter the tick as an environment of `Except`-valued functions, so the
`try`/`catch` of `processSessionTick` can be stated for every possible
behaviour of those modules.  An `error` value carries the session as
mutated so far, since the source updates the shared session object field
by field as the `try` block progresses. -/

/-- The possibly-throwing collaborators of `processSessionTick`. -/
structure TickDeps where
  fetchCandles : String → Except Unit (List Candle)
  updateBuffer : List Candle → Candle → ℕ → Except Unit (List Candle)
  computeMetrics : List Candle → Option ℚ → Except Unit Metrics
  selectModeFromMetrics : Metrics → ModeParams → Except Unit ℕ
  computeMode : ℕ → Metrics → ModeParams → Except Unit ModeResult
  applyBooster : ℚ → ℚ → ℚ → ℕ → Except Unit BoosterResult
  applySafetyPipeline : ℚ → ℚ → ℚ → ℚ → Bool → Except Unit SafetyResult

/-- Steps 2–8 of the `try` block, after the candle buffer has been
refreshed: metrics, dynamic mode selection, mode output, booster, safety,
persisting `lastSpeed`/`lastAmplitude`, and building the command. -/
def pipelineAfterFetch (d : TickDeps) (s1 : Session) :
    Except Session (Session × DeviceCommand) :=
  let prevVolume : Option ℚ :=
    if 1 < s1.candleBuffer.length then
      (s1.candleBuffer[s1.candleBuffer.length - 2]?).map Candle.volume
    else none
  match d.computeMetrics s1.candleBuffer prevVolume with
  | .error _ => .error s1
  | .ok metrics =>
    match d.selectModeFromMetrics metrics s1.modeParams with
    | .error _ => .error s1
    | .ok selectedModeId =>
      let s2 := { s1 with modeId := selectedModeId }
      match d.computeMode selectedModeId metrics s2.modeParams with
      | .error _ => .error s2
      | .ok modeResult =>
        match d.applyBooster modeResult.intensity modeResult.speed
            modeResult.amplitude s2.boosterStep with
        | .error _ => .error s2
        | .ok boosterResult =>
          let s3 := { s2 with boosterStep := boosterResult.newStep }
          match d.applySafetyPipeline boosterResult.speed
              boosterResult.amplitude s3.lastSpeed s3.lastAmplitude false with
          | .error _ => .error s3
          | .ok safetyResult =>
            let s4 := { s3 with lastSpeed := safetyResult.speed,
                                lastAmplitude := safetyResult.amplitude }
            .ok (s4, createDeviceCommand safetyResult)

/-- The whole `try` block: fetch, refresh the buffer from the first new
candle when any arrived, then run the rest of the pipeline. -/
def tryBlock (d : TickDeps) (s0 : Session) :
    Except Session (Session × DeviceCommand) :=
  match d.fetchCandles s0.tokenMint with
  | .error _ => .error s0
  | .ok newCandles =>
    match newCandles with
    | [] => pipelineAfterFetch d s0
    | c :: _ =>
      match d.updateBuffer s0.candleBuffer c BUFFER_SIZE with
      | .error _ => .error s0
      | .ok buffer => pipelineAfterFetch d { s0 with candleBuffer := buffer }

/-- `processSessionTick`: unknown session returns `none`; expired session
is ended and answered with the stop command; otherwise the `try` block
runs, its exceptions caught at this boundary and turned into the degraded
command `{max(20, lastSpeed - 10), 40, 60}`. -/
def processSessionTick (d : TickDeps) (table : SessionTable)
    (sessionId : String) (now : ℤ) : SessionTable × Option DeviceCommand :=
  match mapGet table sessionId with
  | none => (table, none)
  | some session =>
    if isSessionExpired now session then
      (endSession table sessionId, some { speed := 0, minY := 50, maxY := 50 })
    else
      match tryBlock d session with
      | .ok (s4, command) => (mapSet table sessionId s4, some command)
      | .error sErr =>
        (mapSet table sessionId sErr,
         some { speed := max 20 (sErr.lastSpeed - 10), minY := 40, maxY := 60 })

/-! ## Status queries -/

/-- The record returned by `getSessionStatus`. -/
structure SessionStatus where
  exists_ : Bool
  isActive : Bool
  elapsed : Option ℤ
  remaining : Option ℤ
  mode : Option String
  lastCommand : Option (ℚ × ℚ)
  deriving DecidableEq

/-- `getSessionStatus`. -/
def getSessionStatus (table : SessionTable) (sessionId : String) (now : ℤ) :
    SessionStatus :=
  match mapGet table sessionId with
  | none =>
    { exists_ := false, isActive := false, elapsed := none, remaining := none
      mode := none, lastCommand := none }
  | some s =>
    { exists_ := true
      isActive := s.isActive && !isSessionExpired now s
      elapsed := some (Int.fdiv (now - s.startTime) 1000)
      remaining := some (max 0 (Int.fdiv (s.endTime - now) 1000))
      mode := some (getModeName s.modeId)
      lastCommand := some (s.lastSpeed, s.lastAmplitude) }

/-- `getAllActiveSessions`: sessions that are flagged active and not yet
expired. -/
def getAllActiveSessions (table : SessionTable) (now : ℤ) : List Session :=
  (table.map (fun p => p.2)).filter
    (fun s => s.isActive && !isSessionExpired now s)

/-! ## Sample data for concrete runs -/

/-- A freshly-created-looking session used for concrete instantiations. -/
def sampleSession : Session :=
  { sessionId := "s-0", tokenMint := "m", startTime := 0, endTime := 600000
    modeId := 1, modeParams := generateModeParams 5 1, seed := 5
    lastSpeed := 40, lastAmplitude := 25, boosterStep := 0
    candleBuffer := [], isActive := true }

/-- Collaborators that all succeed, with fixed concrete outputs. -/
def sampleDeps : TickDeps :=
  { fetchCandles := fun _ => .ok []
    updateBuffer := fun b _ _ => .ok b
    computeMetrics := fun _ _ => .ok ⟨0, 0, 0, 0, 0⟩
    selectModeFromMetrics := fun _ _ => .ok 1
    computeMode := fun _ _ _ => .ok ⟨0, 50, 30, "steady"⟩
    applyBooster := fun _ sp am st => .ok ⟨sp, am, st, false⟩
    applySafetyPipeline := fun _ _ _ _ _ => .ok ⟨45, 28, false⟩ }

/-- Collaborators that all throw. -/
def failDeps : TickDeps :=
  { fetchCandles := fun _ => .error ()
    updateBuffer := fun _ _ _ => .error ()
    computeMetrics := fun _ _ => .error ()
    selectModeFromMetrics := fun _ _ => .error ()
    computeMode := fun _ _ _ => .error ()
    applyBooster := fun _ _ _ _ => .error ()
    applySafetyPipeline := fun _ _ _ _ _ => .error () }

/-- Collaborators where only the market-data fetch throws. -/
def throwFetchDeps : TickDeps :=
  { sampleDeps with fetchCandles := fun _ => .error () }

/-! ## Helper lemmas -/

theorem srcHashStep_eq_specHashStep (h : ℤ) (c : ℕ) :
    srcHashStep h c = specHashStep h c := by
  simp only [srcHashStep, specHashStep, wrap32]
  omega

theorem foldl_srcHashStep_eq (l : List ℕ) :
    ∀ h : ℤ, l.foldl srcHashStep h = l.foldl specHashStep h := by
  induction l with
  | nil => intro h; rfl
  | cons c l ih =>
    intro h
    simp only [List.foldl_cons, srcHashStep_eq_specHashStep]
    exact ih _

theorem hashString_eq_specHashString (s : String) :
    hashString s = specHashString s :=
  foldl_srcHashStep_eq (charCodes s) 0

theorem mapGet_mapSet_self (t : SessionTable) (k : String) (v : Session) :
    mapGet (mapSet t k v) k = some v := by
  induction t with
  | nil => simp [mapGet, mapSet]
  | cons p rest ih =>
    obtain ⟨k', v'⟩ := p
    by_cases h : k' = k
    · simp [mapGet, mapSet, h]
    · simpa [mapGet, mapSet, h] using ih

theorem pipelineAfterFetch_error_last (d : TickDeps) (s1 s' : Session)
    (h : pipelineAfterFetch d s1 = .error s') :
    s'.lastSpeed = s1.lastSpeed ∧ s'.lastAmplitude = s1.lastAmplitude := by
  simp only [pipelineAfterFetch] at h
  repeat' split at h
  all_goals cases h
  all_goals exact ⟨rfl, rfl⟩

theorem tryBlock_error_last (d : TickDeps) (s s' : Session)
    (h : tryBlock d s = .error s') :
    s'.lastSpeed = s.lastSpeed ∧ s'.lastAmplitude = s.lastAmplitude := by
  rw [tryBlock] at h
  cases hf : d.fetchCandles s.tokenMint with
  | error e => rw [hf] at h; cases h; exact ⟨rfl, rfl⟩
  | ok newCandles =>
    rw [hf] at h
    cases newCandles with
    | nil => exact pipelineAfterFetch_error_last _ _ _ h
    | cons c rest =>
      dsimp only at h
      cases hu : d.updateBuffer s.candleBuffer c BUFFER_SIZE with
      | error e => rw [hu] at h; cases h; exact ⟨rfl, rfl⟩
      | ok buffer =>
        rw [hu] at h
        exact pipelineAfterFetch_error_last d { s with candleBuffer := buffer } s' h

theorem tryBlock_fetch_error (d : TickDeps) (s : Session)
    (h : d.fetchCandles s.tokenMint = .error ()) :
    tryBlock d s = .error s := by
  rw [tryBlock, h]

theorem tryBlock_fetch_empty (d : TickDeps) (s : Session)
    (h : d.fetchCandles s.tokenMint = .ok []) :
    tryBlock d s = pipelineAfterFetch d s := by
  rw [tryBlock, h]

theorem rateLimit_abs_le (maxDelta last target : ℚ) (h : 0 ≤ maxDelta) :
    |(rateLimit maxDelta last target).1 - last| ≤ maxDelta := by
  unfold rateLimit
  split_ifs with h1 h2 <;> try dsimp only
  · have e : last - maxDelta - last = -maxDelta := by ring
    rw [e, abs_neg, abs_of_nonneg h]
  · have e : last + maxDelta - last = maxDelta := by ring
    rw [e, abs_of_nonneg h]
  · exact le_of_not_lt h1

theorem rateLimit_mem (maxDelta last target : ℚ) (h : 0 ≤ maxDelta)
    (h0 : 0 ≤ last) (h1 : last ≤ 100) (t0 : 0 ≤ target) (t1 : target ≤ 100) :
    0 ≤ (rateLimit maxDelta last target).1 ∧
      (rateLimit maxDelta last target).1 ≤ 100 := by
  unfold rateLimit
  split_ifs with hc hd <;> try dsimp only
  · rw [abs_of_nonpos (by linarith : target - last ≤ 0)] at hc
    constructor <;> linarith
  · have hd' := not_lt.mp hd
    rw [abs_of_nonneg (by linarith : (0:ℚ) ≤ target - last)] at hc
    constructor <;> linarith
  · exact ⟨t0, t1⟩

theorem clamp100_mem (x : ℚ) : 0 ≤ clamp100 x ∧ clamp100 x ≤ 100 :=
  ⟨le_min (by norm_num) (le_max_left 0 x), min_le_left 100 (max 0 x)⟩

theorem find?_unique {p : (String × Session) → Bool}
    (l : List (String × Session)) (q : String × Session)
    (hmem : q ∈ l) (hq : p q = true)
    (huniq : ∀ r ∈ l, p r = true → r = q) :
    List.find? p l = some q := by
  induction l with
  | nil => cases hmem
  | cons x xs ih =>
    by_cases hx : p x = true
    · have hxq : x = q := huniq x (List.mem_cons_self x xs) hx
      subst hxq
      exact List.find?_cons_of_pos xs hx
    · have hxq : q ∈ xs := by
        rcases List.mem_cons.mp hmem with h | h
        · subst h; exact absurd hq hx
        · exact h
      rw [List.find?_cons_of_neg xs (by simpa using hx)]
      exact ih hxq fun r hr hpr => huniq r (List.mem_cons_of_mem x hr) hpr

/-! ## Claims -/

/-- C5: for all identifiers and start times, the derived seed equals the
absolute value of the 32-bit rolling polynomial hash
(`hash = hash*31 + charCode`, wrapped to signed 32-bit at each step) of
`sessionStateId ++ ":" ++ tokenMint ++ ":" ++ floor(startTime/60000)`, and
two start times falling in the same minute bucket with the same
identifiers yield the same seed. -/
theorem generateSeed_spec_and_bucketing (a b : String) (t t1 t2 : ℤ)
    (hb : Int.fdiv t1 60000 = Int.fdiv t2 60000) :
    generateSeed a b t = generateSeedSpec a b t ∧
    generateSeed a b t1 = generateSeed a b t2 := by
  constructor
  · unfold generateSeed generateSeedSpec
    rw [hashString_eq_specHashString]
  · unfold generateSeed seedString
    rw [hb]

theorem generateSeed_spec_and_bucketing_witness :
    Int.fdiv 0 60000 = Int.fdiv 59999 60000 ∧
      (generateSeed "a" "b" 60001 = generateSeedSpec "a" "b" 60001 ∧
        generateSeed "a" "b" 0 = generateSeed "a" "b" 59999) :=
  ⟨rfl, generateSeed_spec_and_bucketing "a" "b" 60001 0 59999 rfl⟩

/-- C4: for a fixed `(sessionStateId, tokenMint, startTime)` input triple,
`createSession` yields the same seed and structurally equal `ModeParams`
regardless of the pre-existing session table and of the ambient clock:
the seed and all randomized thresholds/weights are a pure function of the
inputs. -/
theorem createSession_deterministic (t1 t2 : SessionTable)
    (cfg : SessionConfig) (now1 now2 st : ℤ)
    (hst : cfg.startTime = some st) (h0 : st ≠ 0) :
    ((createSession t1 cfg now1).2).seed = ((createSession t2 cfg now2).2).seed ∧
    ((createSession t1 cfg now1).2).modeParams
      = ((createSession t2 cfg now2).2).modeParams := by
  simp [createSession, hst, h0]

theorem createSession_deterministic_witness :
    (⟨"s", "m", some 60000⟩ : SessionConfig).startTime = some 60000 ∧
    (60000 : ℤ) ≠ 0 ∧
      (((createSession [] ⟨"s", "m", some 60000⟩ 0).2).seed
          = ((createSession [("x", (createSession [] ⟨"s", "m", some 60000⟩ 0).2)]
              ⟨"s", "m", some 60000⟩ 77).2).seed ∧
       ((createSession [] ⟨"s", "m", some 60000⟩ 0).2).modeParams
          = ((createSession [("x", (createSession [] ⟨"s", "m", some 60000⟩ 0).2)]
              ⟨"s", "m", some 60000⟩ 77).2).modeParams) :=
  ⟨rfl, by decide,
    createSession_deterministic []
      [("x", (createSession [] ⟨"s", "m", some 60000⟩ 0).2)]
      ⟨"s", "m", some 60000⟩ 0 77 60000 rfl (by decide)⟩

/-- C7: for all inputs, `createSession` computes the seed from the config
identifiers and the effective start time, generates the mode parameters
once from that seed with the default starting mode 1, initializes
`lastSpeed = 40` and `lastAmplitude = 25`, sets
`endTime = startTime + SESSION_DURATION_MS` (10 minutes) with
`isActive = true`, `boosterStep = 0` and an empty candle buffer, and
registers the session in the table under its `sessionId`. -/
theorem createSession_fields (table : SessionTable) (cfg : SessionConfig)
    (now : ℤ) :
    ((createSession table cfg now).2).endTime
        = ((createSession table cfg now).2).startTime + SESSION_DURATION_MS ∧
    SESSION_DURATION_MS = 600000 ∧
    ((createSession table cfg now).2).seed
        = generateSeed cfg.sessionStateId cfg.tokenMint
            ((createSession table cfg now).2).startTime ∧
    ((createSession table cfg now).2).modeParams
        = generateModeParams ((createSession table cfg now).2).seed 1 ∧
    ((createSession table cfg now).2).modeId = 1 ∧
    ((createSession table cfg now).2).lastSpeed = 40 ∧
    ((createSession table cfg now).2).lastAmplitude = 25 ∧
    ((createSession table cfg now).2).boosterStep = 0 ∧
    ((createSession table cfg now).2).candleBuffer = [] ∧
    ((createSession table cfg now).2).isActive = true ∧
    ((createSession table cfg now).2).tokenMint = cfg.tokenMint ∧
    mapGet (createSession table cfg now).1 ((createSession table cfg now).2).sessionId
        = some (createSession table cfg now).2 :=
  ⟨rfl, rfl, rfl, rfl, rfl, rfl, rfl, rfl, rfl, rfl, rfl,
    mapGet_mapSet_self table _ _⟩

/-- C1 (amended): for all raw speed/amplitude inputs — including
out-of-range and negative values — and all `lastSpeed`/`lastAmplitude`
inside the session invariant range `[0,100]`, the safety pipeline (with a
non-negative maximum per-tick delta and the anti-bored floor disabled, as
in the tick path) returns speed and amplitude in `[0,100]`, the output
speed and amplitude each differ from their last value by at most the
maximum delta, and when the clamped raw speed would exceed that delta the
output moves by exactly the maximum delta from `lastSpeed` toward it. -/
theorem applySafetyPipeline_safe (maxDelta boredFloor rawS rawA lastS lastA : ℚ)
    (hd : 0 ≤ maxDelta) (hs0 : 0 ≤ lastS) (hs1 : lastS ≤ 100)
    (ha0 : 0 ≤ lastA) (ha1 : lastA ≤ 100) :
    (0 ≤ (applySafetyPipeline maxDelta boredFloor rawS rawA lastS lastA false).speed ∧
      (applySafetyPipeline maxDelta boredFloor rawS rawA lastS lastA false).speed ≤ 100) ∧
    (0 ≤ (applySafetyPipeline maxDelta boredFloor rawS rawA lastS lastA false).amplitude ∧
      (applySafetyPipeline maxDelta boredFloor rawS rawA lastS lastA false).amplitude ≤ 100) ∧
    |(applySafetyPipeline maxDelta boredFloor rawS rawA lastS lastA false).speed - lastS|
      ≤ maxDelta ∧
    |(applySafetyPipeline maxDelta boredFloor rawS rawA lastS lastA false).amplitude - lastA|
      ≤ maxDelta ∧
    (maxDelta < |clamp100 rawS - lastS| →
      (applySafetyPipeline maxDelta boredFloor rawS rawA lastS lastA false).speed
        = (if clamp100 rawS < lastS then lastS - maxDelta else lastS + maxDelta)) := by
  have cs := clamp100_mem rawS
  have ca := clamp100_mem rawA
  refine ⟨rateLimit_mem maxDelta lastS (clamp100 rawS) hd hs0 hs1 cs.1 cs.2,
          rateLimit_mem maxDelta lastA (clamp100 rawA) hd ha0 ha1 ca.1 ca.2,
          rateLimit_abs_le maxDelta lastS (clamp100 rawS) hd,
          rateLimit_abs_le maxDelta lastA (clamp100 rawA) hd, ?_⟩
  intro hlim
  show (rateLimit maxDelta lastS (clamp100 rawS)).1 = _
  rw [rateLimit, if_pos hlim]

theorem applySafetyPipeline_safe_witness :
    (0 : ℚ) ≤ 15 ∧ (0 : ℚ) ≤ 40 ∧ (40 : ℚ) ≤ 100 ∧ (0 : ℚ) ≤ 25 ∧ (25 : ℚ) ≤ 100 ∧
      ((0 ≤ (applySafetyPipeline 15 0 500 (-7) 40 25 false).speed ∧
        (applySafetyPipeline 15 0 500 (-7) 40 25 false).speed ≤ 100) ∧
      (0 ≤ (applySafetyPipeline 15 0 500 (-7) 40 25 false).amplitude ∧
        (applySafetyPipeline 15 0 500 (-7) 40 25 false).amplitude ≤ 100) ∧
      |(applySafetyPipeline 15 0 500 (-7) 40 25 false).speed - 40| ≤ 15 ∧
      |(applySafetyPipeline 15 0 500 (-7) 40 25 false).amplitude - 25| ≤ 15 ∧
      ((15 : ℚ) < |clamp100 500 - 40| →
        (applySafetyPipeline 15 0 500 (-7) 40 25 false).speed
          = (if clamp100 500 < 40 then 40 - 15 else (40 : ℚ) + 15))) :=
  ⟨by decide, by decide, by decide, by decide, by decide,
    applySafetyPipeline_safe 15 0 500 (-7) 40 25
      (by decide) (by decide) (by decide) (by decide) (by decide)⟩

/-- C1 counterexample: the claim quantifies over all `lastSpeed`, but for
`lastSpeed = 200` (outside the session invariant range) and raw speed 0
the rate limiter moves from 200 toward 0 by the maximum delta, producing a
speed of 185, outside `[0,100]` — so the clamped-output conjunct of the
claim fails as stated. -/
theorem applySafetyPipeline_counterexample :
    (applySafetyPipeline 15 0 0 0 200 200 false).speed = 185 ∧
      ¬ ((applySafetyPipeline 15 0 0 0 200 200 false).speed ≤ 100) := by
  constructor <;> norm_num [applySafetyPipeline, clamp100, rateLimit]

/-- C2: `isSessionExpired` is true exactly when the current time is at or
past `endTime`, and a tick on a present, expired session returns the
canonical stop command `{speed 0, minY 50, maxY 50}` and stores the
session back with `isActive = false`. -/
theorem expiration_contract (d : TickDeps) (table : SessionTable)
    (sid : String) (now : ℤ) (s : Session)
    (hget : mapGet table sid = some s) (hexp : s.endTime ≤ now) :
    (∀ (s2 : Session) (n2 : ℤ), isSessionExpired n2 s2 = true ↔ s2.endTime ≤ n2) ∧
    (processSessionTick d table sid now).2
      = some { speed := 0, minY := 50, maxY := 50 } ∧
    mapGet (processSessionTick d table sid now).1 sid
      = some { s with isActive := false } := by
  have hiff : ∀ (s2 : Session) (n2 : ℤ),
      isSessionExpired n2 s2 = true ↔ s2.endTime ≤ n2 := by
    intro s2 n2
    simp [isSessionExpired]
  have hb : isSessionExpired now s = true := (hiff s now).mpr hexp
  refine ⟨hiff, ?_, ?_⟩
  · simp [processSessionTick, hget, hb]
  · simp [processSessionTick, hget, hb, endSession, mapGet_mapSet_self]

theorem expiration_contract_witness :
    mapGet [("sid", sampleSession)] "sid" = some sampleSession ∧
    sampleSession.endTime ≤ 600000 ∧
      ((∀ (s2 : Session) (n2 : ℤ),
          isSessionExpired n2 s2 = true ↔ s2.endTime ≤ n2) ∧
      (processSessionTick failDeps [("sid", sampleSession)] "sid" 600000).2
        = some { speed := 0, minY := 50, maxY := 50 } ∧
      mapGet (processSessionTick failDeps [("sid", sampleSession)] "sid" 600000).1 "sid"
        = some { sampleSession with isActive := false }) :=
  ⟨rfl, by decide,
    expiration_contract failDeps [("sid", sampleSession)] "sid" 600000
      sampleSession rfl (by decide)⟩

/-- C3: once the session is present and not expired the tick always
returns a command for every behaviour of the collaborating modules (the
embedding returns, never throws), and whenever the try-block computation —
fetch, buffer update, metrics, mode selection, mode output, booster or
safety — raises, the tick answers with the degraded command
`{max(20, lastSpeed - 10), minY 40, maxY 60}`, whose speed is bounded
below by 20. -/
theorem tick_error_degraded (d : TickDeps) (table : SessionTable)
    (sid : String) (now : ℤ) (s s' : Session)
    (hget : mapGet table sid = some s)
    (hexp : isSessionExpired now s = false)
    (herr : tryBlock d s = .error s') :
    (∀ d2 : TickDeps, ∃ cmd, (processSessionTick d2 table sid now).2 = some cmd) ∧
    (processSessionTick d table sid now).2
      = some { speed := max 20 (s.lastSpeed - 10), minY := 40, maxY := 60 } ∧
    (20 : ℚ) ≤ max 20 (s.lastSpeed - 10) := by
  have hlast := (tryBlock_error_last d s s' herr).1
  refine ⟨?_, ?_, le_max_left _ _⟩
  · intro d2
    cases htb : tryBlock d2 s with
    | ok p =>
      obtain ⟨s4, cmd⟩ := p
      exact ⟨cmd, by simp [processSessionTick, hget, hexp, htb]⟩
    | error serr =>
      exact ⟨{ speed := max 20 (serr.lastSpeed - 10), minY := 40, maxY := 60 },
        by simp [processSessionTick, hget, hexp, htb]⟩
  · rw [← hlast]
    simp [processSessionTick, hget, hexp, herr]

theorem tick_error_degraded_witness :
    mapGet [("sid", sampleSession)] "sid" = some sampleSession ∧
    isSessionExpired 0 sampleSession = false ∧
    tryBlock failDeps sampleSession = .error sampleSession ∧
      ((∀ d2 : TickDeps,
          ∃ cmd, (processSessionTick d2 [("sid", sampleSession)] "sid" 0).2 = some cmd) ∧
      (processSessionTick failDeps [("sid", sampleSession)] "sid" 0).2
        = some { speed := max 20 (sampleSession.lastSpeed - 10), minY := 40, maxY := 60 } ∧
      (20 : ℚ) ≤ max 20 (sampleSession.lastSpeed - 10)) :=
  ⟨rfl, rfl, rfl,
    tick_error_degraded failDeps [("sid", sampleSession)] "sid" 0
      sampleSession sampleSession rfl rfl rfl⟩

/-- C8 (amended): the market-data fetch sits inside the tick's try block,
so a throwing fetch is caught at the tick boundary and answered with the
degraded command — the tick does not proceed; it is a fetch that returns
zero new samples that makes the tick proceed through metrics, mode,
booster and safety computation with the candle buffer unchanged. -/
theorem tick_fetch_behaviour (d : TickDeps) (table : SessionTable)
    (sid : String) (now : ℤ) (s : Session)
    (hget : mapGet table sid = some s)
    (hexp : isSessionExpired now s = false) :
    (d.fetchCandles s.tokenMint = .error () →
      (processSessionTick d table sid now).2
        = some { speed := max 20 (s.lastSpeed - 10), minY := 40, maxY := 60 }) ∧
    (d.fetchCandles s.tokenMint = .ok [] →
      tryBlock d s = pipelineAfterFetch d s) := by
  constructor
  · intro hf
    have herr : tryBlock d s = .error s := tryBlock_fetch_error d s hf
    simp [processSessionTick, hget, hexp, herr]
  · exact tryBlock_fetch_empty d s

theorem tick_fetch_behaviour_witness :
    mapGet [("sid", sampleSession)] "sid" = some sampleSession ∧
    isSessionExpired 0 sampleSession = false ∧
      ((throwFetchDeps.fetchCandles sampleSession.tokenMint = .error () →
        (processSessionTick throwFetchDeps [("sid", sampleSession)] "sid" 0).2
          = some { speed := max 20 (sampleSession.lastSpeed - 10)
                   minY := 40, maxY := 60 }) ∧
      (throwFetchDeps.fetchCandles sampleSession.tokenMint = .ok [] →
        tryBlock throwFetchDeps sampleSession
          = pipelineAfterFetch throwFetchDeps sampleSession)) :=
  ⟨rfl, rfl,
    tick_fetch_behaviour throwFetchDeps [("sid", sampleSession)] "sid" 0
      sampleSession rfl rfl⟩

/-- C8 counterexample: with a present, non-expired session whose fetch
throws while every other step succeeds, the tick returns the degraded
command `{30, 40, 60}`; had it proceeded with the stale buffer as the
claim states, the identical collaborators (differing only in the fetch
returning no samples) produce the command `{45, 36, 64}` — so the tick
does degrade rather than proceed. -/
theorem tick_fetch_throw_counterexample :
    (processSessionTick throwFetchDeps [("sid", sampleSession)] "sid" 0).2
        = some { speed := 30, minY := 40, maxY := 60 } ∧
    (processSessionTick sampleDeps [("sid", sampleSession)] "sid" 0).2
        = some { speed := 45, minY := 36, maxY := 64 } ∧
    ({ speed := 45, minY := 36, maxY := 64 } : DeviceCommand)
        ≠ { speed := 30, minY := 40, maxY := 60 } := by
  refine ⟨?_, ?_, ?_⟩
  · norm_num [processSessionTick, mapGet, throwFetchDeps, sampleDeps, sampleSession,
      tryBlock, pipelineAfterFetch, createDeviceCommand, isSessionExpired]
  · norm_num [processSessionTick, mapGet, sampleDeps, sampleSession, tryBlock,
      pipelineAfterFetch, createDeviceCommand, isSessionExpired]
  · intro h
    have := congrArg DeviceCommand.speed h
    norm_num at this

/-- C9: every operation on a sessionId absent from the table returns an
empty result and leaves the table unchanged: `getSession` is `none`,
`processSessionTick` returns `none` without touching the table,
`getSessionStatus` is `{exists: false, isActive: false}`, and `endSession`
is the identity. -/
theorem not_found_contract (d : TickDeps) (table : SessionTable)
    (sid : String) (now : ℤ) (hget : mapGet table sid = none) :
    getSession table sid = none ∧
    processSessionTick d table sid now = (table, none) ∧
    getSessionStatus table sid now =
      { exists_ := false, isActive := false, elapsed := none, remaining := none
        mode := none, lastCommand := none } ∧
    endSession table sid = table := by
  refine ⟨hget, ?_, ?_, ?_⟩ <;>
    simp [processSessionTick, getSessionStatus, endSession, hget]

theorem not_found_contract_witness :
    mapGet [("sid", sampleSession)] "ghost" = none ∧
      (getSession [("sid", sampleSession)] "ghost" = none ∧
      processSessionTick failDeps [("sid", sampleSession)] "ghost" 0
        = ([("sid", sampleSession)], none) ∧
      getSessionStatus [("sid", sampleSession)] "ghost" 0 =
        { exists_ := false, isActive := false, elapsed := none, remaining := none
          mode := none, lastCommand := none } ∧
      endSession [("sid", sampleSession)] "ghost" = [("sid", sampleSession)]) :=
  ⟨rfl, not_found_contract failDeps [("sid", sampleSession)] "ghost" 0 rfl⟩

/-- C10: a session still flagged active whose `endTime` has passed is
still returned by `getActiveSessionForToken` for its token (the lookup
checks only the flag, not expiry), while at the same instant
`getAllActiveSessions` excludes it and `getSessionStatus` reports it as
existing but not active. -/
theorem stale_active_session_views (table : SessionTable) (sid : String)
    (s : Session) (now : ℤ)
    (hget : mapGet table sid = some s)
    (hmem : (sid, s) ∈ table)
    (hact : s.isActive = true)
    (hexp : s.endTime ≤ now)
    (huniq : ∀ q ∈ table,
      (q.2.tokenMint = s.tokenMint ∧ q.2.isActive = true) → q = (sid, s)) :
    getActiveSessionForToken table s.tokenMint = some s ∧
    s ∉ getAllActiveSessions table now ∧
    (getSessionStatus table sid now).exists_ = true ∧
    (getSessionStatus table sid now).isActive = false := by
  have hexpb : isSessionExpired now s = true := by
    simp [isSessionExpired, hexp]
  refine ⟨?_, ?_, ?_, ?_⟩
  · have hfind : List.find?
        (fun p => p.2.tokenMint == s.tokenMint && p.2.isActive) table
        = some (sid, s) := by
      apply find?_unique table (sid, s) hmem
      · simp [hact]
      · intro r hr hpr
        apply huniq r hr
        simpa using hpr
    simp [getActiveSessionForToken, hfind]
  · intro hmemall
    have := List.mem_filter.mp hmemall
    simp [hexpb] at this
  · simp [getSessionStatus, hget]
  · simp [getSessionStatus, hget, hexpb]

theorem stale_active_session_views_witness :
    mapGet [("sid", sampleSession)] "sid" = some sampleSession ∧
    ("sid", sampleSession) ∈ [("sid", sampleSession)] ∧
    sampleSession.isActive = true ∧
    sampleSession.endTime ≤ 600000 ∧
    (∀ q ∈ [("sid", sampleSession)],
      (q.2.tokenMint = sampleSession.tokenMint ∧ q.2.isActive = true) →
        q = ("sid", sampleSession)) ∧
      (getActiveSessionForToken [("sid", sampleSession)] sampleSession.tokenMint
          = some sampleSession ∧
      sampleSession ∉ getAllActiveSessions [("sid", sampleSession)] 600000 ∧
      (getSessionStatus [("sid", sampleSession)] "sid" 600000).exists_ = true ∧
      (getSessionStatus [("sid", sampleSession)] "sid" 600000).isActive = false) :=
  ⟨rfl, by simp, rfl, by decide, by simp,
    stale_active_session_views [("sid", sampleSession)] "sid" sampleSession 600000
      rfl (by simp) rfl (by decide) (by simp)⟩

end ChartSync
